import Mathlib

/-!
Shallow embedding of the pixel-domain pipeline of the image-converter
repository (services/image-processor.service.ts, services/image-optimizer.service.ts,
strategies/base-conversion.strategy.ts, strategies/jpeg-conversion.strategy.ts,
strategies/avif-conversion.strategy.ts, types/image.types.ts).

Modelling conventions:
- A pixel buffer (JS `Uint8ClampedArray` of `ImageData`) is a flat `List ℕ` of
  channel bytes in R,G,B,A order; stored values are bytes (≤ 255).
- JS numbers are modelled as exact rationals `ℚ`; the decimal literals of the
  source are exact in this model.
- `Math.round x` is `⌊x + 1/2⌋` (round half toward +∞), modelled by `jsRound`.
- Storing an integer into a `Uint8ClampedArray` slot clamps it to [0,255],
  modelled by `clampByte`.
- A JS division `0 / 0` is `NaN`; the only place it can arise
  (`calculateImageComplexity` on an empty sample) is modelled with `Option ℚ`,
  `none` standing for `NaN`.
-/

namespace ImageConverter

/-- JS `Math.round`: round half toward positive infinity.
Uses the executable `Rat.floor` so that concrete instances evaluate. -/
def jsRound (q : ℚ) : ℤ := (q + 1 / 2).floor

theorem jsRound_eq_floor (q : ℚ) : jsRound q = ⌊q + 1 / 2⌋ := by
  unfold jsRound
  rw [Rat.floor_def', ← Rat.floor_def]

/-- Storing an integer into a `Uint8ClampedArray` slot clamps it to [0,255].
Also models the explicit `Math.max(0, Math.min(255, ·))` in the optimizer. -/
def clampByte (z : ℤ) : ℕ := (max 0 (min 255 z)).toNat

theorem jsRound_natCast (n : ℕ) : jsRound (n : ℚ) = n := by
  rw [jsRound_eq_floor, Int.floor_eq_iff]
  constructor
  · push_cast
    linarith
  · push_cast
    linarith

theorem clampByte_of_le (z : ℤ) (h0 : 0 ≤ z) (h255 : z ≤ 255) : (clampByte z : ℤ) = z := by
  unfold clampByte
  rw [min_eq_right h255, max_eq_right h0, Int.toNat_of_nonneg h0]

theorem jsRound_eq_of (q : ℚ) (z : ℤ) (h1 : (z : ℚ) ≤ q + 1 / 2) (h2 : q + 1 / 2 < z + 1) :
    jsRound q = z := by
  rw [jsRound_eq_floor, Int.floor_eq_iff]
  exact ⟨h1, h2⟩

theorem clampByte_jsRound_eq (q : ℚ) (z : ℤ) (o : ℕ) (h : jsRound q = z)
    (h2 : clampByte z = o) : clampByte (jsRound q) = o := by
  rw [h]
  exact h2

/-! ### BaseConversionStrategy.applyOptimization
`data[i] = Math.round(data[i] / 2) * 2` on the R,G,B channels of each
RGBA quadruplet; the alpha channel is unchanged. -/

/-- One channel of the base optimization: `Math.round(c / 2) * 2`, stored into
a `Uint8ClampedArray` slot. -/
def quantHalf (c : ℕ) : ℕ := clampByte (jsRound ((c : ℚ) / 2) * 2)

/-- `BaseConversionStrategy.applyOptimization`: the loop
`for (i = 0; i < data.length; i += 4)` over the flat RGBA buffer. -/
def baseApplyOptimization : List ℕ → List ℕ
  | r :: g :: b :: a :: rest =>
      quantHalf r :: quantHalf g :: quantHalf b :: a :: baseApplyOptimization rest
  | l => l

/-! ### JpegConversionStrategy.applyOptimization
First composites every pixel with `alpha < 1` onto a white background
(`data[i] = Math.round(data[i] * alpha + 255 * (1 - alpha))`, alpha forced
to 255), then calls `super.applyOptimization`. -/

/-- One channel of the white-background composite:
`Math.round(c * (a/255) + 255 * (1 - a/255))` stored into a clamped slot. -/
def blendChannel (c a : ℕ) : ℕ :=
  clampByte (jsRound ((c : ℚ) * ((a : ℚ) / 255) + 255 * (1 - (a : ℚ) / 255)))

/-- The per-pixel body of the JPEG alpha-flatten loop: `alpha = data[i+3]/255`;
if `alpha < 1` (i.e. the alpha byte is < 255) blend each RGB channel with white
and set alpha to 255, otherwise leave the pixel alone. -/
def flattenQuad (r g b a : ℕ) : ℕ × ℕ × ℕ × ℕ :=
  if a < 255 then (blendChannel r a, blendChannel g a, blendChannel b a, 255) else (r, g, b, a)

/-- The JPEG alpha-flatten loop over the flat RGBA buffer. -/
def jpegFlatten : List ℕ → List ℕ
  | r :: g :: b :: a :: rest =>
      let p := flattenQuad r g b a
      p.1 :: p.2.1 :: p.2.2.1 :: p.2.2.2 :: jpegFlatten rest
  | l => l

/-- `JpegConversionStrategy.applyOptimization`: the alpha-flatten loop followed
by `super.applyOptimization` (the base RGB quantization) on the same buffer. -/
def jpegApplyOptimization (data : List ℕ) : List ℕ :=
  baseApplyOptimization (jpegFlatten data)

/-! ### ImageOptimizerService.applyPsychovisualOptimization
RGB → YCbCr (BT.601), quantize Cb and Cr to multiples of 4 with
`Math.round(c / 4) * 4`, convert back, clamp with
`Math.max(0, Math.min(255, Math.round(·)))`. Alpha untouched. -/

/-- The per-pixel body of `applyPsychovisualOptimization`. -/
def chromaPixel (r g b : ℕ) : ℕ × ℕ × ℕ :=
  let y : ℚ := 0.299 * r + 0.587 * g + 0.114 * b
  let cb : ℚ := -0.168736 * r - 0.331264 * g + 0.5 * b + 128
  let cr : ℚ := 0.5 * r - 0.418688 * g - 0.081312 * b + 128
  let cbOptimized : ℚ := (jsRound (cb / 4) : ℚ) * 4
  let crOptimized : ℚ := (jsRound (cr / 4) : ℚ) * 4
  let rOptimized : ℚ := y + 1.402 * (crOptimized - 128)
  let gOptimized : ℚ := y - 0.344136 * (cbOptimized - 128) - 0.714136 * (crOptimized - 128)
  let bOptimized : ℚ := y + 1.772 * (cbOptimized - 128)
  (clampByte (jsRound rOptimized), clampByte (jsRound gOptimized), clampByte (jsRound bOptimized))

/-- `ImageOptimizerService.applyPsychovisualOptimization` over the flat buffer. -/
def applyPsychovisualOptimization : List ℕ → List ℕ
  | r :: g :: b :: a :: rest =>
      let p := chromaPixel r g b
      p.1 :: p.2.1 :: p.2.2 :: a :: applyPsychovisualOptimization rest
  | l => l

/-! ### AvifConversionStrategy.applyOptimization
`data[i] = Math.round(data[i])` on the R,G,B channels. -/

/-- One channel of the AVIF optimization: `Math.round(c)` stored back. -/
def avifQuantChannel (c : ℕ) : ℕ := clampByte (jsRound (c : ℚ))

/-- `AvifConversionStrategy.applyOptimization` over the flat RGBA buffer. -/
def avifApplyOptimization : List ℕ → List ℕ
  | r :: g :: b :: a :: rest =>
      avifQuantChannel r :: avifQuantChannel g :: avifQuantChannel b :: a ::
        avifApplyOptimization rest
  | l => l

/-- The pixel data `AvifConversionStrategy.convert` hands to the encoder:
the drawn buffer, with `applyOptimization` applied when `optimize` is set. -/
def avifConvertPixels (data : List ℕ) (optimize : Bool) : List ℕ :=
  if optimize then avifApplyOptimization data else data

/-! ### ImageOptimizerService.calculateImageComplexity
Walks the flat buffer comparing each pixel with its raster-order successor
(`for (i = 0; i < data.length - 4; i += 4)`, reading channels `i` and `i+4`).
`avgVariance = totalVariance / (data.length / 4)` is a JS division: on an
empty buffer it is `0 / 0 = NaN`, modelled as `none`. -/

/-- RGBA pixels of the flat buffer (the buffer length is a multiple of 4:
it comes from an `ImageData`). -/
def toPixels : List ℕ → List (ℕ × ℕ × ℕ × ℕ)
  | r :: g :: b :: a :: rest => (r, g, b, a) :: toPixels rest
  | _ => []

/-- JS `Math.abs(x - y)` for byte values. -/
def natDist (x y : ℕ) : ℕ := max x y - min x y

/-- `|ΔR| + |ΔG| + |ΔB|` between two adjacent pixels. -/
def pairVariance (p q : ℕ × ℕ × ℕ × ℕ) : ℕ :=
  natDist p.1 q.1 + natDist p.2.1 q.2.1 + natDist p.2.2.1 q.2.2.1

/-- Accumulates `(totalVariance, edgeCount)` over adjacent pixel pairs, with
the fixed edge threshold 30 (`if (variance > threshold) edgeCount++`). -/
def varianceScan : List (ℕ × ℕ × ℕ × ℕ) → ℕ × ℕ
  | p :: q :: rest =>
      let v := pairVariance p q
      let t := varianceScan (q :: rest)
      (t.1 + v, t.2 + if 30 < v then 1 else 0)
  | _ => (0, 0)

/-- `ImageOptimizerService.calculateImageComplexity`. Returns `none` for the
`NaN` produced by `totalVariance / (0 / 4)` on an empty buffer. -/
def calculateImageComplexity (data : List ℕ) : Option ℚ :=
  if data.length = 0 then none
  else
    let s := varianceScan (toPixels data)
    let pixelCount : ℚ := (data.length : ℚ) / 4
    let avgVariance : ℚ := (s.1 : ℚ) / pixelCount
    let edgeRatio : ℚ := (s.2 : ℚ) / pixelCount
    some (min 1 (avgVariance / 100 * 0.5 + edgeRatio * 0.5))

/-! ### ImageOptimizerService.calculateOptimalQuality -/

/-- The complexity→quality bucket mapping at the end of
`calculateOptimalQuality`. -/
def selectQuality (complexity : ℚ) : ℚ :=
  if complexity > 0.7 then 0.92
  else if complexity > 0.4 then 0.85
  else 0.75

/-- `calculateOptimalQuality` on the sampled buffer. A `NaN` complexity
(empty sample) fails both `>` comparisons in JS and lands in the 0.75 branch. -/
def calculateOptimalQuality (data : List ℕ) : ℚ :=
  match calculateImageComplexity data with
  | none => 0.75
  | some c => selectQuality c

/-! ### ImageProcessorService.process, quality determination and result
assembly (lines 55-96). -/

/-- Quality determination in `process`:
`let quality = options.quality; if (options.optimize && this.optimizer)
quality = this.optimizer.calculateOptimalQuality(resizedBitmap)`. -/
def processQuality (callerQuality : ℚ) (optimize : Bool) (optimizerPresent : Bool)
    (resizedData : List ℕ) : ℚ :=
  if optimize && optimizerPresent then calculateOptimalQuality resizedData else callerQuality

/-- Supported target formats (`ImageFormat` in types/image.types.ts). -/
inductive ImageFormat
  | jpeg
  | png
  | webp
  | avif
  | gif
  | bmp
deriving DecidableEq

/-- A bitmap as the pipeline sees it: dimensions plus pixel data. -/
structure Bitmap where
  width : ℕ
  height : ℕ
  data : List ℕ

/-- What an encoder invocation (`strategy.convert`) yields: the blob size and
the state the input bitmap is left in (the encoder may invalidate/close it). -/
structure EncodeOutcome where
  blobSize : ℕ
  bitmapAfter : Bitmap

/-- The fields of `ProcessingResult` relevant to the pixel pipeline (the
`blob` object itself, `compressionRatio` — a `toFixed(2)` formatting of
`(1 - processed/original) * 100` — and the wall-clock `processingTime` are
bookkeeping outside this model). -/
structure ProcessingResultModel where
  format : ImageFormat
  originalSize : ℕ
  processedSize : ℕ
  width : ℕ
  height : ℕ

/-- Lines 55-96 of `ImageProcessorService.process`, from the (possibly
resized) bitmap on: determine quality, save the dimensions BEFORE converting,
convert through the strategy, assemble the result. Returns the result together
with the quality value that was handed to `strategy.convert`. -/
def processFromResized (fileSize : ℕ) (resized : Bitmap) (targetFormat : ImageFormat)
    (callerQuality : ℚ) (optimize : Bool) (optimizerPresent : Bool)
    (encode : Bitmap → ℚ → Bool → EncodeOutcome) : ProcessingResultModel × ℚ :=
  let quality := processQuality callerQuality optimize optimizerPresent resized.data
  let resultWidth := resized.width
  let resultHeight := resized.height
  let outcome := encode resized quality optimize
  ({ format := targetFormat, originalSize := fileSize, processedSize := outcome.blobSize,
     width := resultWidth, height := resultHeight }, quality)

/-! ### ImageProcessorService.resizeImage, dimension computation. -/

/-- JS truthiness of an optional numeric option: `undefined` and `0` are falsy. -/
def truthy : Option ℕ → Bool
  | none => false
  | some n => n != 0

/-- The numeric value of an optional option where the source reads it (only
read under a `truthy` guard, so the default is never observed). -/
def optVal (o : Option ℕ) : ℕ := o.getD 0

/-- The new dimensions computed by `resizeImage` (the drawing of the bitmap at
those dimensions is an external canvas operation). `keepAspect` is the
source's `maintainAspectRatio` option. -/
def resizeDimensions (width height : ℕ) (maxW maxH : Option ℕ) (keepAspect : Bool) :
    ℤ × ℤ :=
  if keepAspect then
    let aspect : ℚ := (width : ℚ) / (height : ℚ)
    let w1 : ℤ := width
    let h1 : ℤ := height
    let s2 : ℤ × ℤ :=
      if truthy maxW ∧ (optVal maxW : ℤ) < w1 then
        ((optVal maxW : ℤ), jsRound ((optVal maxW : ℚ) / aspect))
      else (w1, h1)
    if truthy maxH ∧ (optVal maxH : ℤ) < s2.2 then
      (jsRound ((optVal maxH : ℚ) * aspect), (optVal maxH : ℤ))
    else s2
  else
    ((if truthy maxW then (optVal maxW : ℤ) else (width : ℤ)),
     (if truthy maxH then (optVal maxH : ℤ) else (height : ℤ)))

/-! ### ImageProcessorService.isValidImage and the extension table. -/

/-- `IMAGE_EXTENSIONS` from types/image.types.ts. -/
def imageExtensionTable : List (List Char × ImageFormat) :=
  [("jpg".data, .jpeg), ("jpeg".data, .jpeg), ("png".data, .png), ("webp".data, .webp),
   ("avif".data, .avif), ("gif".data, .gif), ("bmp".data, .bmp)]

/-- Own-key lookup in `IMAGE_EXTENSIONS` (as used through
`IMAGE_EXTENSIONS[extension]` in `extractMetadata`). -/
def lookupExtension (ext : List Char) : Option ImageFormat :=
  (imageExtensionTable.find? (fun kv => kv.1 == ext)).map (fun kv => kv.2)

/-- Property names inherited from `Object.prototype`. A plain object literal
such as `IMAGE_EXTENSIONS` has these on its prototype chain, and the JS `in`
operator finds inherited properties as well as own keys. -/
def objectPrototypeProps : List (List Char) :=
  ["constructor".data, "hasOwnProperty".data, "isPrototypeOf".data,
   "propertyIsEnumerable".data, "toLocaleString".data, "toString".data,
   "valueOf".data, "__defineGetter__".data, "__defineSetter__".data,
   "__lookupGetter__".data, "__lookupSetter__".data, "__proto__".data]

/-- The `extension in IMAGE_EXTENSIONS` check: true for an own key of the
table or for any property inherited from `Object.prototype`. -/
def extensionInTable (ext : List Char) : Bool :=
  (lookupExtension ext).isSome || objectPrototypeProps.contains ext

/-- JS `String.prototype.split('.')`: splits on every dot; `"".split('.')`
is `[""]`. Strings are modelled as `List Char`. -/
def splitOnDot : List Char → List (List Char)
  | [] => [[]]
  | c :: rest =>
      let parts := splitOnDot rest
      if c = '.' then [] :: parts
      else
        match parts with
        | s :: ss => (c :: s) :: ss
        | [] => [[c]]

/-- `p` is a prefix of `s` (JS `String.prototype.startsWith`). -/
def hasPrefixChars : List Char → List Char → Bool
  | [], _ => true
  | _ :: _, [] => false
  | p :: ps, s :: ss => p == s && hasPrefixChars ps ss

/-- `file.name.split('.').pop()?.toLowerCase() || ''`: the last dot-separated
segment of the name, lower-cased (for a dotless name this is the whole name;
`split` never yields an empty array, and `'' || ''` is `''` either way). -/
def extensionOf (name : List Char) : List Char :=
  (((splitOnDot name).getLast?).getD []).map Char.toLower

/-- A `File` as `isValidImage` sees it: declared MIME type and file name. -/
structure JSFile where
  name : List Char
  type : List Char

/-- `ImageProcessorService.isValidImage`: reject unless the MIME type starts
with `image/`; then test the lower-cased extension with
`extension in IMAGE_EXTENSIONS`. -/
def isValidImage (f : JSFile) : Bool :=
  if hasPrefixChars "image/".data f.type then extensionInTable (extensionOf f.name)
  else false

/-! ### Definitions written from the spec's words, for comparison. -/

/-- Rounding to the nearest multiple of 2 (ties up), clamped to the byte
range — the direct-quantization step the base strategy actually performs,
stated in the spec's vocabulary. -/
def nearestMultipleOfTwo (c : ℕ) : ℕ := min (2 * ((c + 1) / 2)) 255

/-- A buffer is uniform when all its pixels are equal. -/
def uniformPixels (data : List ℕ) : Prop :=
  ∀ p ∈ toPixels data, ∀ q ∈ toPixels data, p = q

instance (data : List ℕ) : Decidable (uniformPixels data) := by
  unfold uniformPixels
  infer_instance

/-! ## Shared evaluation lemmas -/

theorem varianceScan_single (p : ℕ × ℕ × ℕ × ℕ) : varianceScan [p] = (0, 0) := rfl

/-- A one-pixel sample scores 0: no adjacent pair is scanned, and the
average variance and edge ratio are both `0 / 1`. -/
theorem complexity_single_pixel (r g b a : ℕ) :
    calculateImageComplexity [r, g, b, a] = some 0 := by
  simp only [calculateImageComplexity, toPixels, varianceScan_single, List.length_cons,
    List.length_nil]
  norm_num [min_def]

/-- `Math.round(c / 2)` on a byte is `(c + 1) / 2` in integer arithmetic
(ties round up). -/
theorem jsRound_natCast_div_two (c : ℕ) : jsRound ((c : ℚ) / 2) = ((c + 1) / 2 : ℕ) := by
  rw [jsRound_eq_floor, Int.floor_eq_iff]
  have h1 : 2 * ((c + 1) / 2) ≤ c + 1 := by omega
  have h2 : c + 1 < 2 * ((c + 1) / 2) + 2 := by omega
  have hq1 : 2 * (((c + 1) / 2 : ℕ) : ℚ) ≤ (c : ℚ) + 1 := by exact_mod_cast h1
  have hq2 : (c : ℚ) + 1 < 2 * (((c + 1) / 2 : ℕ) : ℚ) + 2 := by exact_mod_cast h2
  constructor
  · rw [Int.cast_natCast]
    linarith
  · rw [Int.cast_natCast]
    linarith

/-- The base strategy's per-channel step is exactly rounding to the nearest
multiple of 2 (ties up), saturating at 255. -/
theorem quantHalf_eq (c : ℕ) : quantHalf c = nearestMultipleOfTwo c := by
  unfold quantHalf nearestMultipleOfTwo clampByte
  rw [jsRound_natCast_div_two]
  rcases le_or_lt ((((c + 1) / 2 : ℕ) : ℤ) * 2) 255 with h | h
  · rw [min_eq_right h, max_eq_right (by positivity), min_eq_left (by omega)]
    omega
  · rw [min_eq_left (le_of_lt h), max_eq_right (by norm_num), min_eq_right (by omega)]
    rfl

theorem blendChannel_zero (c : ℕ) : blendChannel c 0 = 255 := by
  have h : ((c : ℚ) * (((0 : ℕ) : ℚ) / 255) + 255 * (1 - ((0 : ℕ) : ℚ) / 255)) = 255 := by
    norm_num
  unfold blendChannel
  rw [h, jsRound_eq_of 255 255 (by norm_num) (by norm_num)]
  decide

theorem avifQuant_id (c : ℕ) (hc : c ≤ 255) : avifQuantChannel c = c := by
  unfold avifQuantChannel clampByte
  rw [jsRound_natCast, min_eq_right (by exact_mod_cast hc), max_eq_right (by positivity)]
  omega

theorem avif_opt_id :
    ∀ data : List ℕ, (∀ x ∈ data, x ≤ 255) → avifApplyOptimization data = data
  | [], _ => rfl
  | [_], _ => rfl
  | [_, _], _ => rfl
  | [_, _, _], _ => rfl
  | r :: g :: b :: a :: rest, h => by
      have ih := avif_opt_id rest fun x hx => h x (by simp [hx])
      have hr := avifQuant_id r (h r (by simp))
      have hg := avifQuant_id g (h g (by simp))
      have hb := avifQuant_id b (h b (by simp))
      simp only [avifApplyOptimization, hr, hg, hb, ih]

/-! ## Claims -/

/-- C3: the quality selector is an exact three-bucket step function with
thresholds exclusive on the high side: `s > 0.70` yields 0.92,
`0.40 < s ≤ 0.70` yields 0.85, `s ≤ 0.40` yields 0.75; in particular
`s = 0.70` yields 0.85 and `s = 0.70001` yields 0.92. -/
theorem selectQuality_buckets (s : ℚ) :
    (0.7 < s → selectQuality s = 0.92) ∧
    (0.4 < s → s ≤ 0.7 → selectQuality s = 0.85) ∧
    (s ≤ 0.4 → selectQuality s = 0.75) ∧
    selectQuality 0.7 = 0.85 ∧ selectQuality 0.70001 = 0.92 := by
  refine ⟨fun h => ?_, fun h1 h2 => ?_, fun h => ?_, ?_, ?_⟩
  · unfold selectQuality
    rw [if_pos h]
  · unfold selectQuality
    rw [if_neg (not_lt.mpr h2), if_pos h1]
  · unfold selectQuality
    rw [if_neg (not_lt.mpr (le_trans h (by norm_num))), if_neg (not_lt.mpr h)]
  · unfold selectQuality
    norm_num
  · unfold selectQuality
    norm_num

/-- Witness for C3: evaluating the selector in each bucket. -/
theorem selectQuality_buckets_witness :
    selectQuality 0.8 = 0.92 ∧ selectQuality 0.5 = 0.85 ∧ selectQuality 0.1 = 0.75 :=
  ⟨(selectQuality_buckets 0.8).1 (by norm_num),
   (selectQuality_buckets 0.5).2.1 (by norm_num) (by norm_num),
   (selectQuality_buckets 0.1).2.2.1 (by norm_num)⟩

/-- C8: the width and height in the returned result equal the dimensions of
the bitmap immediately before the encode step — they are read and stored prior
to the `strategy.convert` call, so they hold for every encoder behaviour,
including encoders that invalidate their input bitmap. -/
theorem result_dims_captured_before_encode (fileSize : ℕ) (resized : Bitmap)
    (fmt : ImageFormat) (q : ℚ) (optimize optimizerPresent : Bool)
    (encode : Bitmap → ℚ → Bool → EncodeOutcome) :
    (processFromResized fileSize resized fmt q optimize optimizerPresent encode).1.width
        = resized.width ∧
    (processFromResized fileSize resized fmt q optimize optimizerPresent encode).1.height
        = resized.height :=
  ⟨rfl, rfl⟩

/-- C1 (amended): automatic quality selection runs whenever `optimize` is true
and an optimizer is configured, overriding any caller-supplied quality; the
caller's quality passes through unchanged exactly when `optimize` is false or
no optimizer is present. -/
theorem quality_override_behavior (q : ℚ) (p : Bool) (data : List ℕ) :
    processQuality q false p data = q ∧
    processQuality q true false data = q ∧
    processQuality q true true data = calculateOptimalQuality data :=
  ⟨rfl, rfl, rfl⟩

/-- C1 counterexample: with `optimize = true`, an optimizer present and the
caller quality pinned to 0.5, a single-black-pixel buffer yields effective
quality 0.75 — the pinned quality is not passed through. -/
theorem quality_passthrough_counterexample :
    processQuality 0.5 true true [0, 0, 0, 255] = 0.75 ∧ (0.75 : ℚ) ≠ 0.5 := by
  constructor
  · show calculateOptimalQuality [0, 0, 0, 255] = 0.75
    unfold calculateOptimalQuality
    rw [complexity_single_pixel]
    unfold selectQuality
    norm_num
  · norm_num

/-- C9 counterexample: a file named `photo.constructor` with an `image/` MIME
type is accepted by `isValidImage` although `constructor` is not in the
supported-format table — the JS `in` operator also finds properties inherited
from `Object.prototype`, so the claimed iff ("a file satisfying only one of
the two checks is rejected") is false of the program. -/
theorem isValidImage_prototype_counterexample :
    isValidImage ⟨"photo.constructor".data, "image/png".data⟩ = true ∧
    lookupExtension "constructor".data = none := by decide

/-- C9 (amended): `isValidImage` returns true iff the declared MIME type
starts with `image/` AND the lower-cased file-name extension is either a key
of `IMAGE_EXTENSIONS` or a property name inherited from `Object.prototype`
(after lower-casing only `constructor` and `__proto__` are reachable); for
every other extension both checks are required and either one alone is
rejected. -/
theorem isValidImage_iff_amended :
    (∀ f : JSFile, isValidImage f = true ↔
      (hasPrefixChars "image/".data f.type = true ∧
        ((lookupExtension (extensionOf f.name)).isSome = true ∨
          objectPrototypeProps.contains (extensionOf f.name) = true))) ∧
    isValidImage ⟨"photo.png".data, "text/plain".data⟩ = false ∧
    isValidImage ⟨"photo.txt".data, "image/png".data⟩ = false ∧
    isValidImage ⟨"PHOTO.PNG".data, "image/png".data⟩ = true ∧
    isValidImage ⟨"photo.__proto__".data, "image/png".data⟩ = true := by
  refine ⟨fun f => ?_, by decide, by decide, by decide, by decide⟩
  unfold isValidImage extensionInTable
  split_ifs with h
  · simp [h]
  · simp [h]

/-- C5: the alpha-flatten pre-pass maps a fully transparent pixel to pure
white, leaves a fully opaque pixel unchanged, and blends a partial-alpha
pixel with the white background channel-wise as
`srcRGB * (alpha/255) + 255 * (1 - alpha/255)` (rounded into a clamped byte
slot), forcing alpha to 255. -/
theorem alpha_flatten_behavior (r g b a : ℕ) :
    (a = 0 → flattenQuad r g b a = (255, 255, 255, 255)) ∧
    (a = 255 → flattenQuad r g b a = (r, g, b, a)) ∧
    (0 < a → a < 255 →
      flattenQuad r g b a =
        (clampByte (jsRound ((r : ℚ) * ((a : ℚ) / 255) + 255 * (1 - (a : ℚ) / 255))),
         clampByte (jsRound ((g : ℚ) * ((a : ℚ) / 255) + 255 * (1 - (a : ℚ) / 255))),
         clampByte (jsRound ((b : ℚ) * ((a : ℚ) / 255) + 255 * (1 - (a : ℚ) / 255))),
         255)) := by
  refine ⟨fun h => ?_, fun h => ?_, fun h1 h2 => ?_⟩
  · subst h
    simp [flattenQuad, blendChannel_zero]
  · subst h
    simp [flattenQuad]
  · unfold flattenQuad blendChannel
    rw [if_pos h2]

/-- Witness for C5: a half-transparent pixel (10, 20, 30, 128) flattens
to (132, 137, 142, 255). -/
theorem alpha_flatten_behavior_witness :
    (0 < 128 ∧ 128 < 255) ∧ flattenQuad 10 20 30 128 = (132, 137, 142, 255) := by
  refine ⟨⟨by norm_num, by norm_num⟩, ?_⟩
  rw [(alpha_flatten_behavior 10 20 30 128).2.2 (by norm_num) (by norm_num)]
  refine Prod.ext ?_ (Prod.ext ?_ (Prod.ext ?_ rfl))
  · exact clampByte_jsRound_eq _ 132 _ (jsRound_eq_of _ _ (by norm_num) (by norm_num))
      (by decide)
  · exact clampByte_jsRound_eq _ 137 _ (jsRound_eq_of _ _ (by norm_num) (by norm_num))
      (by decide)
  · exact clampByte_jsRound_eq _ 142 _ (jsRound_eq_of _ _ (by norm_num) (by norm_num))
      (by decide)

/-- C2 (amended): the optimizer applied after the JPEG alpha-flatten pre-pass
is the base direct quantization — each RGB channel is independently rounded to
the nearest multiple of 2 (ties up, saturating at 255), alpha untouched; it is
not the YCbCr chroma transform. -/
theorem jpeg_post_flatten_quantization (r g b : ℕ) :
    jpegApplyOptimization [r, g, b, 255] =
      [nearestMultipleOfTwo r, nearestMultipleOfTwo g, nearestMultipleOfTwo b, 255] := by
  unfold jpegApplyOptimization
  have hf : jpegFlatten [r, g, b, 255] = [r, g, b, 255] := by
    simp [jpegFlatten, flattenQuad]
  rw [hf]
  simp [baseApplyOptimization, quantHalf_eq]

/-- C7 (amended): a sampled region with exactly one pixel scores 0. (The
empty region does not score 0 — see the counterexample.) -/
theorem complexity_small_regions (data : List ℕ) (h : data.length = 4) :
    calculateImageComplexity data = some 0 := by
  match data, h with
  | [r, g, b, a], _ => exact complexity_single_pixel r g b a

/-- Witness for C7 (amended). -/
theorem complexity_small_regions_witness :
    ([5, 6, 7, 8] : List ℕ).length = 4 ∧ calculateImageComplexity [5, 6, 7, 8] = some 0 :=
  ⟨rfl, complexity_small_regions [5, 6, 7, 8] rfl⟩

/-- C7 counterexample: on the empty region the analyzer divides `0 / 0`,
which is `NaN` in JS (modelled `none`) — not the score 0 the claim states. -/
theorem complexity_empty_counterexample : calculateImageComplexity [] ≠ some 0 := by
  simp [calculateImageComplexity]

/-- C10: the AVIF optimizer pass is the identity on byte buffers (rounding an
integer channel changes nothing), so the pixel data handed to the encoder is
the same whether `optimize` is true or false. -/
theorem avif_optimization_identity (data : List ℕ) (h : ∀ x ∈ data, x ≤ 255) :
    avifApplyOptimization data = data ∧
      avifConvertPixels data true = avifConvertPixels data false := by
  have hid := avif_opt_id data h
  exact ⟨hid, by simp [avifConvertPixels, hid]⟩

/-- Witness for C10. -/
theorem avif_optimization_identity_witness :
    (∀ x ∈ ([0, 128, 255, 7] : List ℕ), x ≤ 255) ∧
      avifApplyOptimization [0, 128, 255, 7] = [0, 128, 255, 7] :=
  ⟨by decide, (avif_optimization_identity [0, 128, 255, 7] (by decide)).1⟩

/-! ## Concrete evaluations of the chroma transform -/

/-- Evaluation scheme for `chromaPixel`: supply the two rounded chroma values
and the three clamped output channels. -/
theorem chromaPixel_eval (r g b : ℕ) (k1 k2 : ℤ) (o1 o2 o3 : ℕ)
    (h1 : jsRound ((-0.168736 * r - 0.331264 * g + 0.5 * b + 128) / 4) = k1)
    (h2 : jsRound ((0.5 * r - 0.418688 * g - 0.081312 * b + 128) / 4) = k2)
    (h3 : clampByte (jsRound (0.299 * r + 0.587 * g + 0.114 * b +
        1.402 * ((k2 : ℚ) * 4 - 128))) = o1)
    (h4 : clampByte (jsRound (0.299 * r + 0.587 * g + 0.114 * b -
        0.344136 * ((k1 : ℚ) * 4 - 128) - 0.714136 * ((k2 : ℚ) * 4 - 128))) = o2)
    (h5 : clampByte (jsRound (0.299 * r + 0.587 * g + 0.114 * b +
        1.772 * ((k1 : ℚ) * 4 - 128))) = o3) :
    chromaPixel r g b = (o1, o2, o3) := by
  simp only [chromaPixel]
  rw [h1, h2, h3, h4, h5]

theorem chromaPixel_grey1 : chromaPixel 1 1 1 = (1, 1, 1) :=
  chromaPixel_eval 1 1 1 32 32 1 1 1
    (jsRound_eq_of _ _ (by norm_num) (by norm_num))
    (jsRound_eq_of _ _ (by norm_num) (by norm_num))
    (clampByte_jsRound_eq _ 1 _ (jsRound_eq_of _ _ (by norm_num) (by norm_num)) (by decide))
    (clampByte_jsRound_eq _ 1 _ (jsRound_eq_of _ _ (by norm_num) (by norm_num)) (by decide))
    (clampByte_jsRound_eq _ 1 _ (jsRound_eq_of _ _ (by norm_num) (by norm_num)) (by decide))

theorem chromaPixel_blue14 : chromaPixel 0 0 14 = (2, 0, 16) :=
  chromaPixel_eval 0 0 14 34 32 2 0 16
    (jsRound_eq_of _ _ (by norm_num) (by norm_num))
    (jsRound_eq_of _ _ (by norm_num) (by norm_num))
    (clampByte_jsRound_eq _ 2 _ (jsRound_eq_of _ _ (by norm_num) (by norm_num)) (by decide))
    (clampByte_jsRound_eq _ (-1) _ (jsRound_eq_of _ _ (by norm_num) (by norm_num)) (by decide))
    (clampByte_jsRound_eq _ 16 _ (jsRound_eq_of _ _ (by norm_num) (by norm_num)) (by decide))

theorem chromaPixel_blue16 : chromaPixel 2 0 16 = (2, 0, 17) :=
  chromaPixel_eval 2 0 16 34 32 2 0 17
    (jsRound_eq_of _ _ (by norm_num) (by norm_num))
    (jsRound_eq_of _ _ (by norm_num) (by norm_num))
    (clampByte_jsRound_eq _ 2 _ (jsRound_eq_of _ _ (by norm_num) (by norm_num)) (by decide))
    (clampByte_jsRound_eq _ 0 _ (jsRound_eq_of _ _ (by norm_num) (by norm_num)) (by decide))
    (clampByte_jsRound_eq _ 17 _ (jsRound_eq_of _ _ (by norm_num) (by norm_num)) (by decide))

theorem chromaPixel_black : chromaPixel 0 0 0 = (0, 0, 0) :=
  chromaPixel_eval 0 0 0 32 32 0 0 0
    (jsRound_eq_of _ _ (by norm_num) (by norm_num))
    (jsRound_eq_of _ _ (by norm_num) (by norm_num))
    (clampByte_jsRound_eq _ 0 _ (jsRound_eq_of _ _ (by norm_num) (by norm_num)) (by decide))
    (clampByte_jsRound_eq _ 0 _ (jsRound_eq_of _ _ (by norm_num) (by norm_num)) (by decide))
    (clampByte_jsRound_eq _ 0 _ (jsRound_eq_of _ _ (by norm_num) (by norm_num)) (by decide))

theorem chroma_buffer_once :
    applyPsychovisualOptimization [0, 0, 14, 255, 0, 0, 0, 255] =
      [2, 0, 16, 255, 0, 0, 0, 255] := by
  simp [applyPsychovisualOptimization, chromaPixel_blue14, chromaPixel_black]

theorem chroma_buffer_twice :
    applyPsychovisualOptimization [2, 0, 16, 255, 0, 0, 0, 255] =
      [2, 0, 17, 255, 0, 0, 0, 255] := by
  simp [applyPsychovisualOptimization, chromaPixel_blue16, chromaPixel_black]

/-- C2 counterexample: on the opaque pixel (1, 1, 1) the JPEG optimizer
(post-flatten) produces (2, 2, 2), while the Standard-strength chroma
transform — which never quantizes Y — is the identity there; the optimizer
actually applied is therefore not the chroma transform. -/
theorem jpeg_chroma_counterexample :
    jpegApplyOptimization [1, 1, 1, 255] = [2, 2, 2, 255] ∧
    applyPsychovisualOptimization [1, 1, 1, 255] = [1, 1, 1, 255] ∧
    ([2, 2, 2, 255] : List ℕ) ≠ [1, 1, 1, 255] := by
  refine ⟨?_, ?_, by decide⟩
  · have h2 : quantHalf 1 = 2 := by
      rw [quantHalf_eq]
      rfl
    simp [jpegApplyOptimization, jpegFlatten, flattenQuad, baseApplyOptimization, h2]
  · simp [applyPsychovisualOptimization, chromaPixel_grey1]

/-- C4: the chroma transform is not idempotent — on a concrete non-uniform
buffer, applying it twice differs from applying it once (the quantization
error compounds on the pixel (0, 0, 14)). -/
theorem chroma_not_idempotent :
    ∃ data : List ℕ, ¬ uniformPixels data ∧
      applyPsychovisualOptimization (applyPsychovisualOptimization data) ≠
        applyPsychovisualOptimization data := by
  refine ⟨[0, 0, 14, 255, 0, 0, 0, 255], by decide, ?_⟩
  rw [chroma_buffer_once, chroma_buffer_twice]
  decide

/-- C6: aspect-preserving resize applies the width constraint first and the
height constraint second: 1000×500 under `maxWidth = 500` gives 500×250,
500×1000 under `maxHeight = 300` gives 150×300 (and with both constraints
1000×500 under 500/200 the height pass re-adjusts the width to 400×200). -/
theorem resize_aspect_examples :
    resizeDimensions 1000 500 (some 500) none true = (500, 250) ∧
    resizeDimensions 500 1000 none (some 300) true = (150, 300) ∧
    resizeDimensions 1000 500 (some 500) (some 200) true = (400, 200) := by
  refine ⟨?_, ?_, ?_⟩
  · simp only [resizeDimensions, truthy, optVal, Option.getD, jsRound_eq_floor]
    norm_num [Int.floor_eq_iff]
  · simp only [resizeDimensions, truthy, optVal, Option.getD, jsRound_eq_floor]
    norm_num [Int.floor_eq_iff]
  · simp only [resizeDimensions, truthy, optVal, Option.getD, jsRound_eq_floor]
    norm_num [Int.floor_eq_iff]

end ImageConverter
